import Mathlib

/-!
Verification of the ship exhaust-emission estimator (src/compute.py).

The Python module is a chain of pure numeric transforms over read-only
reference tables.  We embed it shallowly: every table-reading function takes
the (optionally missing) table content as an explicit argument, numbers are
exact rationals, a printed warning becomes an entry of a warning list carried
in the result, and a raised Python exception becomes an `Except.error` with a
constructor per exception class:

  * `ValueError`          ↦ `Err.invalidInput`
  * `FileNotFoundError`   ↦ `Err.resourceNotFound`
  * `ZeroDivisionError`   ↦ `Err.divisionByZero`
  * `TypeError`           ↦ `Err.typeErr`
  * `KeyError`            ↦ `Err.keyErr`
-/

namespace ShipExhaust

/-- Exception classes raised by the source, one constructor per Python class. -/
inductive Err where
  | invalidInput
  | resourceNotFound
  | divisionByZero
  | typeErr
  | keyErr
deriving DecidableEq, Repr

/-- Result of a source function: either a raised exception, or a value
together with the list of warning lines printed while computing it. -/
abbrev Res (α : Type) := Except Err (α × List String)

/-- Result of the per-pollutant dictionary-building functions:
an insertion-ordered association list standing for the Python dict. -/
abbrev EfMapRes := Res (List (String × ℚ))

/-- Dictionary lookup (`d[k]` / `k in d`): first binding of the key. -/
def dictGet (l : List (String × ℚ)) (k : String) : Option ℚ :=
  Option.map (fun e => e.2) (l.find? (fun e => e.1 == k))

/-- Dictionary lookup with default (`d.get(k, dflt)`). -/
def dGetD (l : List (String × ℚ)) (k : String) (dflt : ℚ) : ℚ :=
  (dictGet l k).getD dflt

/-- The value a successful call associates with pollutant `p`, if any. -/
def resLookup (e : EfMapRes) (p : String) : Option ℚ :=
  match e with
  | .ok (l, _) => dictGet l p
  | .error _ => none

/-- The key sequence of a successful call. -/
def resKeys (e : EfMapRes) : Option (List String) :=
  match e with
  | .ok (l, _) => some (l.map (fun e => e.1))
  | .error _ => none

/-- Forget the printed warnings, keeping the returned mapping or exception. -/
def efMap (e : EfMapRes) : Except Err (List (String × ℚ)) :=
  Except.map (fun r => r.1) e

/-- A row of `data/LF_auxiliary.csv` (columns ship,trip,maneuver,mooring,
the schema documented by the test fixtures in the source). -/
structure AuxRow where
  ship : String
  trip : ℚ
  maneuver : ℚ
  mooring : ℚ
deriving DecidableEq, Repr

/-- A row of `data/EF_base.csv`: key columns `exhaust` and `Tier`, one value
column per engine/speed-class combination. -/
structure EFRow where
  exhaust : String
  tier : ℤ
  mainSSD : ℚ
  mainMSD : ℚ
  mainHSD : ℚ
  auxiliary : ℚ
deriving DecidableEq, Repr

/-- A row of `data/EFA_non_man.csv`: pollutant key, one column per valve
configuration (`SV` and `C3`). -/
structure EFARow where
  pollutant : String
  sv : ℚ
  c3 : ℚ
deriving DecidableEq, Repr

/-- A row of a load-percent table (`data/LLA_non_man.csv`,
`data/LAF_MAN_C3.csv`, `data/LAF_MAN_SV.csv`): the load percentage (already
stripped of a trailing percent sign and parsed) plus one value per pollutant
column. -/
structure LoadRow where
  load : ℚ
  vals : List (String × ℚ)
deriving DecidableEq, Repr

/-- Cell access `df.loc[idx, col]` on a load-percent row. -/
def LoadRow.col (r : LoadRow) (c : String) : ℚ :=
  dGetD r.vals c 0

/-- A load-percent table: its pollutant column names and its rows. -/
structure LoadTable where
  cols : List String
  rows : List LoadRow
deriving DecidableEq, Repr

/-- A row of `data/buoy.csv`: buoy id, one reference speed per status column
(statuses as in the commented example of the source and the auxiliary
table). -/
structure BuoyRow where
  buoy : ℤ
  trip : ℚ
  maneuver : ℚ
  mooring : ℚ
deriving DecidableEq, Repr

/-- Source function compute_lf (src/compute.py lines 10-48): load factor of
the vessel.
Main engine: cubic speed ratio; `v_max = 0` raises `ZeroDivisionError`.
Auxiliary engine: table lookup by ship type and status; an unknown ship type
returns the default 0.5 with a printed warning, and a status that is not a
usable column raises `ValueError` (either the explicit raise, or — for the
key column `ship` — the `float()` conversion of the ship-name string). -/
def compute_lf (v_actual v_max : ℚ) (engine type status : String)
    (lf_table : Option (List AuxRow)) : Res ℚ :=
  if engine = "main" then
    if v_max = 0 then .error .divisionByZero
    else .ok ((v_actual / v_max) ^ 3, [])
  else if engine = "auxiliary" then
    match lf_table with
    | none => .error .resourceNotFound
    | some rows =>
      match rows.find? (fun r => r.ship == type) with
      | none => .ok (0.5, ["Warning: ship type not found, default LF 0.5 used"])
      | some r =>
        if status = "trip" then .ok (r.trip, [])
        else if status = "maneuver" then .ok (r.maneuver, [])
        else if status = "mooring" then .ok (r.mooring, [])
        else .error .invalidInput
  else .error .invalidInput

/-- The year `match` of `compute_ef_base` (lines 67-77): guards exactly as in
the source, including the final unreachable `raise ValueError`. -/
def tierOfYear (year : ℤ) : Except Err ℤ :=
  if year < 2000 then .ok 0
  else if 2000 ≤ year ∧ year < 2009 then .ok 1
  else if 2009 ≤ year ∧ year < 2016 then .ok 2
  else if 2016 ≤ year then .ok 3
  else .error .invalidInput

/-- The rpm `match` of `compute_ef_base` (lines 79-87), guards as in the
source with the final unreachable `raise ValueError`. -/
def speedOfRpm (rpm : ℚ) : Except Err String :=
  if rpm < 130 then .ok "SSD"
  else if 130 ≤ rpm ∧ rpm < 2000 then .ok "MSD"
  else if 2000 ≤ rpm then .ok "HSD"
  else .error .invalidInput

/-- Column selection of `compute_ef_base` (lines 109-126) on a matched row:
main engines read their speed-class column, auxiliary engines the
`auxiliary` column, anything else raises `ValueError`. -/
def efbColumn (engine engine_speed : String) (row : EFRow) : Except Err ℚ :=
  if engine = "main" then
    if engine_speed = "SSD" then .ok row.mainSSD
    else if engine_speed = "MSD" then .ok row.mainMSD
    else if engine_speed = "HSD" then .ok row.mainHSD
    else .error .invalidInput
  else if engine = "auxiliary" then .ok row.auxiliary
  else .error .invalidInput

/-- The `for pollutant in pollutants` loops of the source: build the result
dict entry by entry, an exception aborting the loop, warnings accumulating. -/
def runPolls (f : String → Res ℚ) : List String → EfMapRes
  | [] => .ok ([], [])
  | p :: ps =>
    match f p with
    | .error e => .error e
    | .ok (v, w) =>
      match runPolls f ps with
      | .error e => .error e
      | .ok (rest, ws) => .ok ((p, v) :: rest, w ++ ws)

/-- Source function compute_ef_base (lines 50-130).  Note the source
reassigns `tier` from
`year` and `engine_speed` from `rpm` before any lookup, so the `tier` and
`engine_speed` parameters are dead; a pollutant/tier row miss contributes 0.0
with a printed warning. -/
def compute_ef_base (pollutants : List String) (engine engine_speed : String)
    (year : ℤ) (tier : ℤ) (rpm : ℚ)
    (ef_table : Option (List EFRow)) : EfMapRes :=
  match tierOfYear year with
  | .error e => .error e
  | .ok tierD =>
    match speedOfRpm rpm with
    | .error e => .error e
    | .ok speedD =>
      match ef_table with
      | none => .error .resourceNotFound
      | some tbl =>
        runPolls (fun pollutant =>
          match tbl.find? (fun r => r.exhaust == pollutant && r.tier == tierD) with
          | none => .ok (0, ["Warning: configuration for pollutant at this tier not found, returning 0.0"])
          | some row =>
            match efbColumn engine speedD row with
            | .error e => .error e
            | .ok v => .ok (v, [])) pollutants

/-- Maximum of the Load column over a nonempty row list. -/
def maxLoad (r : LoadRow) (rs : List LoadRow) : ℚ :=
  rs.foldl (fun m q => max m q.load) r.load

/-- Row of the minimal absolute Load distance (pandas idxmin) over a
nonempty row list: the first row
whose load is nearest to `x` (later rows replace only on strict improvement,
matching the first-occurrence tie-break of idxmin). -/
def nearestRow (x : ℚ) : LoadRow → List LoadRow → LoadRow
  | b, [] => b
  | b, q :: rs => nearestRow x (if |q.load - x| < |b.load - x| then q else b) rs

/-- Source function compute_lla (lines 135-179): low-load adjustment for
non-MAN engines.
A missing table file is caught: an error line is printed and every requested
pollutant gets multiplier 1.0.  Otherwise, per pollutant: a missing column
gives 1.0 with a warning; a load percent above the table maximum gives 1.0;
else the value at the nearest load row.  `idxmin` on an empty table raises. -/
def compute_lla (pollutants : List String) (lf : ℚ)
    (lla_table : Option LoadTable) : EfMapRes :=
  match lla_table with
  | none =>
    .ok (pollutants.map (fun p => (p, 1)),
      ["Error: File LLA_non_man.csv not found."])
  | some t =>
    runPolls (fun p =>
      if p ∈ t.cols then
        match t.rows with
        | [] => .error .invalidInput
        | r :: rs =>
          if lf * 100 > maxLoad r rs then .ok (1, [])
          else .ok ((nearestRow (lf * 100) r rs).col p, [])
      else .ok (1, ["Warning: pollutant not found in LLA columns, returning 1.0"])) pollutants

/-- Source function compute_efa_non_man (lines 184-231): static
emission-factor adjustment
keyed by valve configuration; the file is read before the valve check, an
invalid valve type raises, a missing pollutant row gives 1.0 with a warning. -/
def compute_efa_non_man (pollutants : List String) (valve_type : String)
    (efa_table : Option (List EFARow)) : EfMapRes :=
  match efa_table with
  | none => .error .resourceNotFound
  | some df =>
    if valve_type ≠ "SV" ∧ valve_type ≠ "C3" then .error .invalidInput
    else
      runPolls (fun p =>
        match df.find? (fun r => r.pollutant == p) with
        | none => .ok (1, ["Warning: pollutant not found in EFA table, returning 1.0"])
        | some row => .ok ((if valve_type = "SV" then row.sv else row.c3), [])) pollutants

/-- Source function compute_real_ef_non_man (lines 233-264): strategy B.
A first base-EF
call with engine main; if lf exceeds 0.2 or the engine is auxiliary the result
is a fresh base-EF call for the given engine, otherwise the per-pollutant
product base × EFA × LLA with `.get` defaults 0.0 / 1.0 / 1.0. -/
def compute_real_ef_non_man (pollutants : List String) (lf : ℚ)
    (engine : String) (year : ℤ) (rpm : ℚ) (valve_type : String)
    (ef_table : Option (List EFRow)) (efa_table : Option (List EFARow))
    (lla_table : Option LoadTable) : EfMapRes :=
  match compute_ef_base pollutants "main" "SSD" year 0 rpm ef_table with
  | .error e => .error e
  | .ok (base_efs, w1) =>
    if lf > 0.2 ∨ engine = "auxiliary" then
      match compute_ef_base pollutants engine "SSD" year 0 rpm ef_table with
      | .error e => .error e
      | .ok (real_ef, w2) => .ok (real_ef, w1 ++ w2)
    else
      match compute_efa_non_man pollutants valve_type efa_table with
      | .error e => .error e
      | .ok (efas, w2) =>
        match compute_lla pollutants lf lla_table with
        | .error e => .error e
        | .ok (llas, w3) =>
          .ok (pollutants.map (fun p =>
              (p, dGetD base_efs p 0 * dGetD efas p 1 * dGetD llas p 1)),
            w1 ++ w2 ++ w3)

/-- The per-pollutant body shared by both `compute_laf_man` table variants:
missing column gives 1.0 with a warning, otherwise nearest-row lookup with no
upper-load gate; `idxmin` on an empty table raises. -/
def lafPoll (t : LoadTable) (x : ℚ) (p : String) : Res ℚ :=
  if p ∈ t.cols then
    match t.rows with
    | [] => .error .invalidInput
    | r :: rs => .ok ((nearestRow x r rs).col p, [])
  else .ok (1, ["Warning: pollutant not found in LAF table, returning 1.0"])

/-- Source function compute_laf_man (lines 265-315): load-adjustment factor
for MAN
engines; the valve type selects which of two table files is read, an invalid
valve type raises before any file access. -/
def compute_laf_man (pollutants : List String) (lf : ℚ) (valve_type : String)
    (laf_c3 laf_sv : Option LoadTable) : EfMapRes :=
  if valve_type = "C3" then
    match laf_c3 with
    | none => .error .resourceNotFound
    | some t => runPolls (lafPoll t (lf * 100)) pollutants
  else if valve_type = "SV" then
    match laf_sv with
    | none => .error .resourceNotFound
    | some t => runPolls (lafPoll t (lf * 100)) pollutants
  else .error .invalidInput

/-- Source function compute_real_ef_man (lines 317-339): strategy A,
per-pollutant product
base × LAF with `.get` defaults 0.0 / 1.0, no load gating. -/
def compute_real_ef_man (pollutants : List String) (lf : ℚ) (engine : String)
    (year : ℤ) (rpm : ℚ) (valve_type : String)
    (ef_table : Option (List EFRow))
    (laf_c3 laf_sv : Option LoadTable) : EfMapRes :=
  match compute_ef_base pollutants engine "SSD" year 0 rpm ef_table with
  | .error e => .error e
  | .ok (base_efs, w1) =>
    match compute_laf_man pollutants lf valve_type laf_c3 laf_sv with
    | .error e => .error e
    | .ok (lafs, w2) =>
      .ok (pollutants.map (fun p => (p, dGetD base_efs p 0 * dGetD lafs p 1)),
        w1 ++ w2)

/-- Status-column access on a buoy row; a status that is no column raises
`KeyError`. -/
def buoyCol (row : BuoyRow) (status : String) : Except Err ℚ :=
  if status = "trip" then .ok row.trip
  else if status = "maneuver" then .ok row.maneuver
  else if status = "mooring" then .ok row.mooring
  else .error .keyErr

/-- Source function compute_A (lines 341-350): distance factor.  An
unmatched buoy id
returns the sentinel `None` with a printed warning; a matched id gives
`2 * (S / v_actual)`, where `v_actual = 0` raises `ZeroDivisionError`.  The
file read is not guarded, so a missing file propagates. -/
def compute_A (v_actual : ℚ) (buoy : ℤ) (status : String)
    (s_table : Option (List BuoyRow)) : Res (Option ℚ) :=
  match s_table with
  | none => .error .resourceNotFound
  | some tbl =>
    match tbl.find? (fun r => r.buoy == buoy) with
    | none => .ok (none, ["Warning: buoy not found, default A will be used"])
    | some row =>
      match buoyCol row status with
      | .error e => .error e
      | .ok S =>
        if v_actual = 0 then .error .divisionByZero
        else .ok (some (2 * (S / v_actual)), [])

/-- The final loop of `compute_E`: `E[p] = lf * A * P * ef[p]` per requested
pollutant.  Each iteration first evaluates `lf * A`, so a `None` distance
factor raises `TypeError` there (and only there: an empty pollutant list
never enters the loop and returns the empty dict); a missing dict key raises
`KeyError`, but only after the sentinel check, matching the operand order of
the source. -/
def mulList (lf : ℚ) (aOpt : Option ℚ) (P : ℚ) (ef : List (String × ℚ)) :
    List String → Except Err (List (String × ℚ))
  | [] => .ok []
  | p :: ps =>
    match aOpt with
    | none => .error .typeErr
    | some A =>
      match dictGet ef p with
      | none => .error .keyErr
      | some v =>
        match mulList lf aOpt P ef ps with
        | .error e => .error e
        | .ok rest => .ok ((p, lf * A * P * v) :: rest)

/-- The reference tables an estimate may consult; `none` models a missing
backing file. -/
structure Tables where
  lf_aux : Option (List AuxRow)
  ef_base : Option (List EFRow)
  efa : Option (List EFARow)
  lla : Option LoadTable
  laf_c3 : Option LoadTable
  laf_sv : Option LoadTable
  buoy : Option (List BuoyRow)

/-- Source function compute_E (lines 352-370): the estimator.  Load factor,
then distance
factor, then the family-selected corrected emission factor, then the final
per-pollutant multiply; multiplying the `None` sentinel raises `TypeError`
inside the loop, at the first requested pollutant, so an empty request
returns the empty mapping even with the sentinel present. -/
def compute_E (pollutants : List String) (v_actual v_max P : ℚ)
    (engine type status : String) (buoy : ℤ) (is_man : Bool)
    (valve_type : String) (rpm : ℚ) (year : ℤ) (T : Tables) : EfMapRes :=
  match compute_lf v_actual v_max engine type status T.lf_aux with
  | .error e => .error e
  | .ok (lf, w1) =>
    match compute_A v_actual buoy status T.buoy with
    | .error e => .error e
    | .ok (aOpt, w2) =>
      match (if is_man then
          compute_real_ef_man pollutants lf engine year rpm valve_type
            T.ef_base T.laf_c3 T.laf_sv
        else
          compute_real_ef_non_man pollutants lf engine year rpm valve_type
            T.ef_base T.efa T.lla) with
      | .error e => .error e
      | .ok (ef, w3) =>
        match mulList lf aOpt P ef pollutants with
        | .error e => .error e
        | .ok es => .ok (es, w1 ++ w2 ++ w3)

/-! ### Helper lemmas -/

theorem dictGet_map_self (g : String → ℚ) (ps : List String) (q : String) :
    dictGet (ps.map (fun p => (p, g p))) q
      = if q ∈ ps then some (g q) else none := by
  induction ps with
  | nil => simp [dictGet]
  | cons p ps ih =>
    by_cases h : p = q
    · subst h
      simp [dictGet, List.find?]
    · have hne : ¬(p == q) = true := by simp [h]
      simp only [List.map_cons, dictGet, List.find?] at *
      simp only [hne, List.mem_cons]
      rw [ih]
      simp [Ne.symm h]

/-- The value a per-pollutant body yields on success (0 if it raises). -/
def okVal (f : String → Res ℚ) (p : String) : ℚ :=
  match f p with
  | .ok (v, _) => v
  | .error _ => 0

theorem runPolls_shape (f : String → Res ℚ) :
    ∀ (ps : List String) (l : List (String × ℚ)) (w : List String),
      runPolls f ps = .ok (l, w) → l = ps.map (fun p => (p, okVal f p)) := by
  intro ps
  induction ps with
  | nil => intro l w h; simp [runPolls] at h; simp [h.1]
  | cons p ps ih =>
    intro l w h
    simp only [runPolls] at h
    cases hf : f p with
    | error e => rw [hf] at h; exact absurd h (by simp)
    | ok vw =>
      rw [hf] at h
      cases hr : runPolls f ps with
      | error e => rw [hr] at h; exact absurd h (by simp)
      | ok rw' =>
        rw [hr] at h
        have h1 : (p, vw.1) :: rw'.1 = l := by
          have := h
          simp at this
          exact this.1
        rw [← h1, List.map_cons]
        have hv : okVal f p = vw.1 := by simp [okVal, hf]
        rw [hv, ih rw'.1 rw'.2 (by rw [hr])]

theorem runPolls_total (f : String → Res ℚ) (ps : List String)
    (h : ∀ p ∈ ps, ∃ vw, f p = .ok vw) :
    ∃ w, runPolls f ps = .ok (ps.map (fun p => (p, okVal f p)), w) := by
  induction ps with
  | nil => exact ⟨[], rfl⟩
  | cons p ps ih =>
    obtain ⟨vw, hf⟩ := h p (by simp)
    obtain ⟨w, hr⟩ := ih (fun q hq => h q (by simp [hq]))
    refine ⟨vw.2 ++ w, ?_⟩
    simp only [runPolls, hf, hr, List.map_cons]
    have hv : okVal f p = vw.1 := by simp [okVal, hf]
    rw [hv]

/-- The tier the year brackets of the source produce, as a total function. -/
def tierVal (year : ℤ) : ℤ :=
  if year < 2000 then 0
  else if year < 2009 then 1
  else if year < 2016 then 2
  else 3

theorem tierOfYear_eq (year : ℤ) : tierOfYear year = .ok (tierVal year) := by
  unfold tierOfYear tierVal
  split_ifs <;> first | rfl | (exfalso; omega)

/-- The speed class the rpm brackets of the source produce, as a total
function. -/
def speedVal (rpm : ℚ) : String :=
  if rpm < 130 then "SSD"
  else if rpm < 2000 then "MSD"
  else "HSD"

theorem speedOfRpm_eq (rpm : ℚ) : speedOfRpm rpm = .ok (speedVal rpm) := by
  unfold speedOfRpm speedVal
  rcases lt_or_le rpm 130 with h | h
  · rw [if_pos h, if_pos h]
  · rw [if_neg (not_lt.mpr h), if_neg (not_lt.mpr h)]
    rcases lt_or_le rpm 2000 with h2 | h2
    · rw [if_pos ⟨h, h2⟩, if_pos h2]
    · rw [if_neg (fun hc => absurd hc.2 (not_lt.mpr h2)),
        if_neg (not_lt.mpr h2), if_pos h2]

theorem speedVal_cases (rpm : ℚ) :
    speedVal rpm = "SSD" ∨ speedVal rpm = "MSD" ∨ speedVal rpm = "HSD" := by
  unfold speedVal
  split_ifs <;> simp

/-- Column selection on a matched base-EF row, as a total function of the
engine and the (valid) speed class. -/
def colSel (engine sc : String) (row : EFRow) : ℚ :=
  if engine = "main" then
    if sc = "SSD" then row.mainSSD
    else if sc = "MSD" then row.mainMSD
    else row.mainHSD
  else row.auxiliary

theorem efbColumn_ok (engine sc : String) (row : EFRow)
    (he : engine = "main" ∨ engine = "auxiliary")
    (hsc : sc = "SSD" ∨ sc = "MSD" ∨ sc = "HSD") :
    efbColumn engine sc row = .ok (colSel engine sc row) := by
  rcases he with he | he <;> subst he
  · rcases hsc with h | h | h <;> subst h <;> rfl
  · rfl

/-- The base emission factor the source assigns to pollutant `p`, given the
derived tier and speed class. -/
def efbVal (engine sc : String) (tier : ℤ) (tbl : List EFRow) (p : String) : ℚ :=
  match tbl.find? (fun r => r.exhaust == p && r.tier == tier) with
  | none => 0
  | some row => colSel engine sc row

theorem compute_ef_base_ok (ps : List String) (engine es : String)
    (year : ℤ) (t : ℤ) (rpm : ℚ) (tbl : List EFRow)
    (he : engine = "main" ∨ engine = "auxiliary") :
    ∃ w, compute_ef_base ps engine es year t rpm (some tbl)
      = .ok (ps.map (fun p =>
          (p, efbVal engine (speedVal rpm) (tierVal year) tbl p)), w) := by
  simp only [compute_ef_base, tierOfYear_eq, speedOfRpm_eq]
  have hptwise : ∀ p, (fun pollutant =>
      match tbl.find? (fun r => r.exhaust == pollutant && r.tier == tierVal year) with
      | none => (.ok (0, ["Warning: configuration for pollutant at this tier not found, returning 0.0"]) : Res ℚ)
      | some row =>
        match efbColumn engine (speedVal rpm) row with
        | .error e => .error e
        | .ok v => .ok (v, [])) p
      = .ok (efbVal engine (speedVal rpm) (tierVal year) tbl p,
          match tbl.find? (fun r => r.exhaust == p && r.tier == tierVal year) with
          | none => ["Warning: configuration for pollutant at this tier not found, returning 0.0"]
          | some _ => []) := by
    intro p
    cases hf : tbl.find? (fun r => r.exhaust == p && r.tier == tierVal year) with
    | none => simp [efbVal, hf]
    | some row =>
      simp only [efbVal, hf,
        efbColumn_ok engine (speedVal rpm) row he (speedVal_cases rpm)]
  obtain ⟨w, hw⟩ := runPolls_total _ ps (fun p _ => ⟨_, hptwise p⟩)
  refine ⟨w, ?_⟩
  rw [hw]
  have hfun : (fun p => (p, okVal (fun pollutant =>
      match tbl.find? (fun r => r.exhaust == pollutant && r.tier == tierVal year) with
      | none => (.ok (0, ["Warning: configuration for pollutant at this tier not found, returning 0.0"]) : Res ℚ)
      | some row =>
        match efbColumn engine (speedVal rpm) row with
        | .error e => .error e
        | .ok v => .ok (v, [])) p))
      = (fun p => (p, efbVal engine (speedVal rpm) (tierVal year) tbl p)) := by
    funext p
    simp [okVal, hptwise p]
  rw [hfun]

theorem nearestRow_mem (x : ℚ) :
    ∀ (rs : List LoadRow) (b : LoadRow),
      nearestRow x b rs = b ∨ nearestRow x b rs ∈ rs := by
  intro rs
  induction rs with
  | nil => intro b; left; rfl
  | cons q rs ih =>
    intro b
    simp only [nearestRow]
    by_cases h : |q.load - x| < |b.load - x|
    · rw [if_pos h]
      rcases ih q with h2 | h2
      · right; simp [h2]
      · right; simp [h2]
    · rw [if_neg h]
      rcases ih b with h2 | h2
      · left; exact h2
      · right; simp [h2]

theorem nearestRow_min (x : ℚ) :
    ∀ (rs : List LoadRow) (b : LoadRow) (q : LoadRow),
      (q = b ∨ q ∈ rs) →
      |(nearestRow x b rs).load - x| ≤ |q.load - x| := by
  intro rs
  induction rs with
  | nil =>
    intro b q hq
    rcases hq with hq | hq
    · subst hq; simp [nearestRow]
    · simp at hq
  | cons r0 rs ih =>
    intro b q hq
    simp only [nearestRow]
    by_cases h : |r0.load - x| < |b.load - x|
    · rw [if_pos h]
      rcases hq with hq | hq
      · subst hq
        exact le_trans (ih r0 r0 (Or.inl rfl)) (le_of_lt h)
      · rcases List.mem_cons.mp hq with hq | hq
        · rw [hq]; exact ih r0 r0 (Or.inl rfl)
        · exact ih r0 q (Or.inr hq)
    · rw [if_neg h]
      rcases hq with hq | hq
      · subst hq; exact ih q q (Or.inl rfl)
      · rcases List.mem_cons.mp hq with hq | hq
        · subst hq
          exact le_trans (ih b b (Or.inl rfl)) (not_lt.mp h)
        · exact ih b q (Or.inr hq)

theorem maxLoad_le (r : LoadRow) (rs : List LoadRow) :
    ∀ q : LoadRow, (q = r ∨ q ∈ rs) → q.load ≤ maxLoad r rs := by
  suffices h : ∀ (rs : List LoadRow) (init : ℚ),
      init ≤ rs.foldl (fun m q => max m q.load) init ∧
      ∀ q ∈ rs, q.load ≤ rs.foldl (fun m q => max m q.load) init by
    intro q hq
    rcases hq with hq | hq
    · subst hq; exact (h rs q.load).1
    · exact (h rs r.load).2 q hq
  intro rs
  induction rs with
  | nil => intro init; exact ⟨le_refl _, by simp⟩
  | cons q0 rs ih =>
    intro init
    constructor
    · exact le_trans (le_max_left init q0.load) (ih (max init q0.load)).1
    · intro q hq
      rcases List.mem_cons.mp hq with hq | hq
      · subst hq
        exact le_trans (le_max_right init q.load) (ih (max init q.load)).1
      · exact (ih (max init q0.load)).2 q hq

theorem maxLoad_attained (r : LoadRow) (rs : List LoadRow) :
    ∃ q : LoadRow, (q = r ∨ q ∈ rs) ∧ maxLoad r rs = q.load := by
  suffices h : ∀ (rs : List LoadRow) (init : ℚ),
      rs.foldl (fun m q => max m q.load) init = init ∨
      ∃ q ∈ rs, rs.foldl (fun m q => max m q.load) init = q.load by
    rcases h rs r.load with h1 | ⟨q, hq, h1⟩
    · exact ⟨r, Or.inl rfl, h1⟩
    · exact ⟨q, Or.inr hq, h1⟩
  intro rs
  induction rs with
  | nil => intro init; left; rfl
  | cons q0 rs ih =>
    intro init
    rcases ih (max init q0.load) with h1 | ⟨q, hq, h1⟩
    · rcases max_choice init q0.load with h2 | h2
      · left; simp only [List.foldl_cons]; rw [h1, h2]
      · right
        exact ⟨q0, by simp, by simp only [List.foldl_cons]; rw [h1, h2]⟩
    · right
      exact ⟨q, by simp [hq], by simp only [List.foldl_cons]; exact h1⟩

/-- The low-load adjustment value for a pollutant, given a nonempty table. -/
def llaVal (t : LoadTable) (lf : ℚ) (p : String) : ℚ :=
  if p ∈ t.cols then
    match t.rows with
    | [] => 0
    | r :: rs =>
      if lf * 100 > maxLoad r rs then 1
      else (nearestRow (lf * 100) r rs).col p
  else 1

theorem compute_lla_ok (ps : List String) (lf : ℚ) (t : LoadTable)
    (r : LoadRow) (rs : List LoadRow) (hrows : t.rows = r :: rs) :
    ∃ w, compute_lla ps lf (some t)
      = .ok (ps.map (fun p => (p, llaVal t lf p)), w) := by
  simp only [compute_lla]
  have hptwise : ∀ p, (fun p =>
      if p ∈ t.cols then
        match t.rows with
        | [] => (.error .invalidInput : Res ℚ)
        | r :: rs =>
          if lf * 100 > maxLoad r rs then .ok (1, [])
          else .ok ((nearestRow (lf * 100) r rs).col p, [])
      else .ok (1, ["Warning: pollutant not found in LLA columns, returning 1.0"])) p
      = .ok (llaVal t lf p,
          if p ∈ t.cols then []
          else ["Warning: pollutant not found in LLA columns, returning 1.0"]) := by
    intro p
    by_cases hc : p ∈ t.cols
    · simp only [hc, if_true, hrows, llaVal]
      by_cases hm : lf * 100 > maxLoad r rs
      · rw [if_pos hm, if_pos hm]
      · rw [if_neg hm, if_neg hm]
    · simp [hc, llaVal]
  obtain ⟨w, hw⟩ := runPolls_total _ ps (fun p _ => ⟨_, hptwise p⟩)
  refine ⟨w, ?_⟩
  rw [hw]
  have hfun : (fun p => (p, okVal (fun p =>
      if p ∈ t.cols then
        match t.rows with
        | [] => (.error .invalidInput : Res ℚ)
        | r :: rs =>
          if lf * 100 > maxLoad r rs then .ok (1, [])
          else .ok ((nearestRow (lf * 100) r rs).col p, [])
      else .ok (1, ["Warning: pollutant not found in LLA columns, returning 1.0"])) p))
      = (fun p => (p, llaVal t lf p)) := by
    funext p
    simp [okVal, hptwise p]
  rw [hfun]

/-- The emission-factor-adjustment value for a pollutant. -/
def efaVal (df : List EFARow) (valve_type : String) (p : String) : ℚ :=
  match df.find? (fun r => r.pollutant == p) with
  | none => 1
  | some row => if valve_type = "SV" then row.sv else row.c3

theorem compute_efa_ok (ps : List String) (valve_type : String)
    (df : List EFARow) (hv : valve_type = "SV" ∨ valve_type = "C3") :
    ∃ w, compute_efa_non_man ps valve_type (some df)
      = .ok (ps.map (fun p => (p, efaVal df valve_type p)), w) := by
  have hval : ¬(valve_type ≠ "SV" ∧ valve_type ≠ "C3") := by
    rcases hv with h | h <;> subst h <;> simp
  simp only [compute_efa_non_man, if_neg hval]
  have hptwise : ∀ p, (fun p =>
      match df.find? (fun r => r.pollutant == p) with
      | none => (.ok (1, ["Warning: pollutant not found in EFA table, returning 1.0"]) : Res ℚ)
      | some row => .ok ((if valve_type = "SV" then row.sv else row.c3), [])) p
      = .ok (efaVal df valve_type p,
          match df.find? (fun r => r.pollutant == p) with
          | none => ["Warning: pollutant not found in EFA table, returning 1.0"]
          | some _ => []) := by
    intro p
    cases hf : df.find? (fun r => r.pollutant == p) with
    | none => simp [efaVal, hf]
    | some row => simp [efaVal, hf]
  obtain ⟨w, hw⟩ := runPolls_total _ ps (fun p _ => ⟨_, hptwise p⟩)
  refine ⟨w, ?_⟩
  rw [hw]
  have hfun : (fun p => (p, okVal (fun p =>
      match df.find? (fun r => r.pollutant == p) with
      | none => (.ok (1, ["Warning: pollutant not found in EFA table, returning 1.0"]) : Res ℚ)
      | some row => .ok ((if valve_type = "SV" then row.sv else row.c3), [])) p))
      = (fun p => (p, efaVal df valve_type p)) := by
    funext p
    simp [okVal, hptwise p]
  rw [hfun]

/-- The load-adjustment-factor value for a pollutant, given a nonempty table. -/
def lafVal (t : LoadTable) (x : ℚ) (p : String) : ℚ :=
  if p ∈ t.cols then
    match t.rows with
    | [] => 0
    | r :: rs => (nearestRow x r rs).col p
  else 1

theorem lafPoll_eq (t : LoadTable) (x : ℚ) (p : String)
    (r : LoadRow) (rs : List LoadRow) (hrows : t.rows = r :: rs) :
    lafPoll t x p = .ok (lafVal t x p,
      if p ∈ t.cols then []
      else ["Warning: pollutant not found in LAF table, returning 1.0"]) := by
  by_cases hc : p ∈ t.cols
  · simp only [lafPoll, lafVal, hc, if_true, hrows]
  · simp [lafPoll, lafVal, hc]

theorem runPolls_laf (ps : List String) (x : ℚ) (t : LoadTable)
    (r : LoadRow) (rs : List LoadRow) (hrows : t.rows = r :: rs) :
    ∃ w, runPolls (lafPoll t x) ps
      = .ok (ps.map (fun p => (p, lafVal t x p)), w) := by
  obtain ⟨w, hw⟩ :=
    runPolls_total (lafPoll t x) ps (fun p _ => ⟨_, lafPoll_eq t x p r rs hrows⟩)
  refine ⟨w, ?_⟩
  rw [hw]
  have hfun : (fun p => (p, okVal (lafPoll t x) p))
      = (fun p => (p, lafVal t x p)) := by
    funext p
    simp [okVal, lafPoll_eq t x p r rs hrows]
  rw [hfun]

theorem compute_laf_man_ok_c3 (ps : List String) (lf : ℚ) (t : LoadTable)
    (osv : Option LoadTable)
    (r : LoadRow) (rs : List LoadRow) (hrows : t.rows = r :: rs) :
    ∃ w, compute_laf_man ps lf "C3" (some t) osv
      = .ok (ps.map (fun p => (p, lafVal t (lf * 100) p)), w) := by
  simp only [compute_laf_man, if_neg (by simp : ¬("C3" : String) = "SV")]
  exact runPolls_laf ps (lf * 100) t r rs hrows

theorem compute_laf_man_ok_sv (ps : List String) (lf : ℚ) (t : LoadTable)
    (oc3 : Option LoadTable)
    (r : LoadRow) (rs : List LoadRow) (hrows : t.rows = r :: rs) :
    ∃ w, compute_laf_man ps lf "SV" oc3 (some t)
      = .ok (ps.map (fun p => (p, lafVal t (lf * 100) p)), w) := by
  simp only [compute_laf_man, if_neg (by simp : ¬("SV" : String) = "C3"), if_pos rfl]
  exact runPolls_laf ps (lf * 100) t r rs hrows

theorem dictGet_of_shape {l : List (String × ℚ)} {ps : List String}
    {g : String → ℚ} (hl : l = ps.map (fun p => (p, g p)))
    {q : String} (hq : q ∈ ps) : dictGet l q = some (g q) := by
  rw [hl, dictGet_map_self, if_pos hq]

theorem compute_ef_base_shape {ps : List String} {engine es : String}
    {year : ℤ} {t : ℤ} {rpm : ℚ} {tbl : Option (List EFRow)}
    {l : List (String × ℚ)} {w : List String}
    (h : compute_ef_base ps engine es year t rpm tbl = .ok (l, w)) :
    ∃ g : String → ℚ, l = ps.map (fun p => (p, g p)) := by
  simp only [compute_ef_base, tierOfYear_eq, speedOfRpm_eq] at h
  cases tbl with
  | none => exact absurd h (by simp)
  | some tbl => exact ⟨_, runPolls_shape _ ps l w h⟩

theorem compute_lla_shape {ps : List String} {lf : ℚ}
    {tbl : Option LoadTable} {l : List (String × ℚ)} {w : List String}
    (h : compute_lla ps lf tbl = .ok (l, w)) :
    ∃ g : String → ℚ, l = ps.map (fun p => (p, g p)) := by
  cases tbl with
  | none =>
    refine ⟨fun _ => 1, ?_⟩
    simp only [compute_lla] at h
    exact ((Prod.mk.injEq _ _ _ _).mp ((Except.ok.injEq _ _).mp h)).1.symm
  | some t =>
    simp only [compute_lla] at h
    exact ⟨_, runPolls_shape _ ps l w h⟩

theorem compute_efa_shape {ps : List String} {valve_type : String}
    {tbl : Option (List EFARow)} {l : List (String × ℚ)} {w : List String}
    (h : compute_efa_non_man ps valve_type tbl = .ok (l, w)) :
    ∃ g : String → ℚ, l = ps.map (fun p => (p, g p)) := by
  cases tbl with
  | none => exact absurd h (by simp [compute_efa_non_man])
  | some df =>
    simp only [compute_efa_non_man] at h
    by_cases hv : valve_type ≠ "SV" ∧ valve_type ≠ "C3"
    · rw [if_pos hv] at h; exact absurd h (by simp)
    · rw [if_neg hv] at h
      exact ⟨_, runPolls_shape _ ps l w h⟩

theorem compute_laf_man_shape {ps : List String} {lf : ℚ}
    {valve_type : String} {laf_c3 laf_sv : Option LoadTable}
    {l : List (String × ℚ)} {w : List String}
    (h : compute_laf_man ps lf valve_type laf_c3 laf_sv = .ok (l, w)) :
    ∃ g : String → ℚ, l = ps.map (fun p => (p, g p)) := by
  simp only [compute_laf_man] at h
  by_cases h1 : valve_type = "C3"
  · rw [if_pos h1] at h
    cases laf_c3 with
    | none => exact absurd h (by simp)
    | some t => exact ⟨_, runPolls_shape _ ps l w h⟩
  · rw [if_neg h1] at h
    by_cases h2 : valve_type = "SV"
    · rw [if_pos h2] at h
      cases laf_sv with
      | none => exact absurd h (by simp)
      | some t => exact ⟨_, runPolls_shape _ ps l w h⟩
    · rw [if_neg h2] at h; exact absurd h (by simp)

theorem compute_real_ef_man_shape {ps : List String} {lf : ℚ}
    {engine : String} {year : ℤ} {rpm : ℚ} {valve_type : String}
    {ef_table : Option (List EFRow)} {laf_c3 laf_sv : Option LoadTable}
    {l : List (String × ℚ)} {w : List String}
    (h : compute_real_ef_man ps lf engine year rpm valve_type
        ef_table laf_c3 laf_sv = .ok (l, w)) :
    ∃ g : String → ℚ, l = ps.map (fun p => (p, g p)) := by
  simp only [compute_real_ef_man] at h
  cases h1 : compute_ef_base ps engine "SSD" year 0 rpm ef_table with
  | error e => rw [h1] at h; exact absurd h (by simp)
  | ok bw =>
    rw [h1] at h
    cases h2 : compute_laf_man ps lf valve_type laf_c3 laf_sv with
    | error e => rw [h2] at h; exact absurd h (by simp)
    | ok lw =>
      rw [h2] at h
      refine ⟨fun p => dGetD bw.1 p 0 * dGetD lw.1 p 1, ?_⟩
      exact ((Prod.mk.injEq _ _ _ _).mp ((Except.ok.injEq _ _).mp h)).1.symm

theorem compute_real_ef_non_man_shape {ps : List String} {lf : ℚ}
    {engine : String} {year : ℤ} {rpm : ℚ} {valve_type : String}
    {ef_table : Option (List EFRow)} {efa_table : Option (List EFARow)}
    {lla_table : Option LoadTable}
    {l : List (String × ℚ)} {w : List String}
    (h : compute_real_ef_non_man ps lf engine year rpm valve_type
        ef_table efa_table lla_table = .ok (l, w)) :
    ∃ g : String → ℚ, l = ps.map (fun p => (p, g p)) := by
  simp only [compute_real_ef_non_man] at h
  split at h
  · exact absurd h (by simp)
  · rename_i base_efs w1 heq1
    split at h
    · split at h
      · exact absurd h (by simp)
      · rename_i real_ef w2 heq2
        obtain ⟨g, hg⟩ := compute_ef_base_shape heq2
        have hl : real_ef = l :=
          ((Prod.mk.injEq _ _ _ _).mp ((Except.ok.injEq _ _).mp h)).1
        exact ⟨g, hl ▸ hg⟩
    · split at h
      · exact absurd h (by simp)
      · rename_i efas w2 heq2
        split at h
        · exact absurd h (by simp)
        · rename_i llas w3 heq3
          refine ⟨fun p => dGetD base_efs p 0 * dGetD efas p 1 * dGetD llas p 1, ?_⟩
          exact ((Prod.mk.injEq _ _ _ _).mp ((Except.ok.injEq _ _).mp h)).1.symm

theorem mulList_ok (lf A P : ℚ) (ef : List (String × ℚ)) (g : String → ℚ) :
    ∀ ps : List String, (∀ p ∈ ps, dictGet ef p = some (g p)) →
      mulList lf (some A) P ef ps
        = .ok (ps.map (fun p => (p, lf * A * P * g p))) := by
  intro ps
  induction ps with
  | nil => intro _; rfl
  | cons p ps ih =>
    intro h
    simp only [mulList, h p (by simp), ih (fun q hq => h q (by simp [hq])),
      List.map_cons]

theorem compute_lf_main (v_actual v_max : ℚ) (type status : String)
    (tb : Option (List AuxRow)) (h : v_max ≠ 0) :
    compute_lf v_actual v_max "main" type status tb
      = .ok ((v_actual / v_max) ^ 3, []) := by
  simp [compute_lf, h]

/-! ### Concrete fixture tables for witnesses and counterexamples -/

def cAux : List AuxRow := [⟨"container", 0.8, 0.6, 0.2⟩]

def cEF : List EFRow :=
  [⟨"NOx", 0, 5, 6, 7, 8⟩, ⟨"NOx", 1, 10, 11, 12, 13⟩,
   ⟨"NOx", 2, 20, 21, 22, 23⟩]

def cEFA : List EFARow := [⟨"NOx", 2, 3⟩]

def cLLA : LoadTable := ⟨["NOx"], [⟨10, [("NOx", 7)]⟩, ⟨20, [("NOx", 5)]⟩]⟩

def cBuoy : List BuoyRow := [⟨0, 8, 4, 1⟩]

def cTables : Tables :=
  ⟨some cAux, some cEF, some cEFA, some cLLA, some cLLA, some cLLA, some cBuoy⟩

/-! ### Claim theorems -/

/-- C7 counterexample: the claim says a negative build year raises an
`InvalidInputError`, but year -5 matches the `year < 2000` bracket, is
classified as tier 0, and the base-EF lookup succeeds with the tier-0 row. -/
theorem c7_counterexample :
    compute_ef_base ["NOx"] "main" "SSD" (-5) 0 100 (some cEF)
        = .ok ([("NOx", 5)], [])
      ∧ tierOfYear (-5) = .ok 0 := by
  constructor
  · norm_num [compute_ef_base, tierOfYear, speedOfRpm, runPolls, efbColumn,
      cEF, List.find?]
  · norm_num [tierOfYear]

/-- C7 (amended): the year brackets are as stated (year < 2000 gives tier 0,
2000–2008 tier 1, 2009–2015 tier 2, 2016 and later tier 3), but they are
total over the integers — every year, negative ones included, is classified
and the invalid-year branch never fires. -/
theorem c7_year_brackets_total (year : ℤ) :
    tierOfYear year = Except.ok
      (if year < 2000 then 0
       else if 2000 ≤ year ∧ year < 2009 then 1
       else if 2009 ≤ year ∧ year < 2016 then 2
       else 3) := by
  rw [tierOfYear_eq]
  unfold tierVal
  congr 1
  split_ifs <;> first | rfl | omega

/-- C8: classification is total — every integer year and every rpm ≥ 0 yield
exactly one (tier, speed class) pair, never an error — and each boundary
input lands in the upper bracket (2000 in tier 1, 2009 in tier 2, 2016 in
tier 3, rpm 130 in MSD, rpm 2000 in HSD). -/
theorem c8_classifier_totality (year : ℤ) (rpm : ℚ) (hrpm : 0 ≤ rpm) :
    (∃! pr : ℤ × String,
        tierOfYear year = Except.ok pr.1 ∧ speedOfRpm rpm = Except.ok pr.2)
    ∧ tierOfYear 2000 = Except.ok 1
    ∧ tierOfYear 2009 = Except.ok 2
    ∧ tierOfYear 2016 = Except.ok 3
    ∧ speedOfRpm 130 = Except.ok "MSD"
    ∧ speedOfRpm 2000 = Except.ok "HSD" := by
  refine ⟨⟨(tierVal year, speedVal rpm),
      ⟨tierOfYear_eq year, speedOfRpm_eq rpm⟩, ?_⟩, ?_, ?_, ?_, ?_, ?_⟩
  · rintro ⟨t, s⟩ ⟨h1, h2⟩
    rw [tierOfYear_eq year] at h1
    rw [speedOfRpm_eq rpm] at h2
    simp only [Except.ok.injEq] at h1 h2
    simp [h1, h2]
  · norm_num [tierOfYear]
  · norm_num [tierOfYear]
  · norm_num [tierOfYear]
  · norm_num [speedOfRpm]
  · norm_num [speedOfRpm]

/-- C8 witness at year 1999, rpm 100. -/
theorem c8_classifier_totality_witness :
    (∃! pr : ℤ × String,
        tierOfYear 1999 = Except.ok pr.1 ∧ speedOfRpm 100 = Except.ok pr.2)
    ∧ tierOfYear 2000 = Except.ok 1
    ∧ tierOfYear 2009 = Except.ok 2
    ∧ tierOfYear 2016 = Except.ok 3
    ∧ speedOfRpm 130 = Except.ok "MSD"
    ∧ speedOfRpm 2000 = Except.ok "HSD" :=
  c8_classifier_totality 1999 100 (by norm_num)

/-- C1: strategy B gating.  When `lf > 0.2` or the engine is auxiliary, the
non-MAN corrected factor is exactly the unmodified base emission factor
mapping for the given engine; when `lf ≤ 0.2` and the engine is main, each
requested pollutant gets base × EFA × LLA. -/
theorem c1_strategyB_gating (ps : List String) (lf : ℚ) (engine : String)
    (year : ℤ) (rpm : ℚ) (valve_type : String)
    (ef_table : Option (List EFRow)) (efa_table : Option (List EFARow))
    (lla_table : Option LoadTable) :
    ((lf > 0.2 ∨ engine = "auxiliary") →
      efMap (compute_real_ef_non_man ps lf engine year rpm valve_type
          ef_table efa_table lla_table)
        = efMap (compute_ef_base ps engine "SSD" year 0 rpm ef_table))
    ∧ (lf ≤ 0.2 → engine = "main" →
      ∀ p ∈ ps, ∀ bv ev lv : ℚ,
        resLookup (compute_ef_base ps "main" "SSD" year 0 rpm ef_table) p
          = some bv →
        resLookup (compute_efa_non_man ps valve_type efa_table) p = some ev →
        resLookup (compute_lla ps lf lla_table) p = some lv →
        resLookup (compute_real_ef_non_man ps lf engine year rpm valve_type
            ef_table efa_table lla_table) p
          = some (bv * ev * lv)) := by
  constructor
  · intro hgate
    cases ef_table with
    | none =>
      simp [compute_real_ef_non_man, compute_ef_base, tierOfYear_eq,
        speedOfRpm_eq, efMap]
    | some tbl =>
      obtain ⟨w1, h1⟩ := compute_ef_base_ok ps "main" "SSD" year 0 rpm tbl
        (Or.inl rfl)
      simp only [compute_real_ef_non_man, h1]
      rw [if_pos hgate]
      cases h2 : compute_ef_base ps engine "SSD" year 0 rpm (some tbl) with
      | error e => simp [efMap]
      | ok rw2 =>
        obtain ⟨r2, w2⟩ := rw2
        simp [efMap, Except.map]
  · intro hlf hmain p hp bv ev lv hb he hl
    subst hmain
    have hgate : ¬(lf > 0.2 ∨ ("main" : String) = "auxiliary") := by
      rintro (h | h)
      · exact absurd hlf (not_le.mpr h)
      · exact absurd h (by simp)
    cases hcb : compute_ef_base ps "main" "SSD" year 0 rpm ef_table with
    | error e => rw [hcb] at hb; exact absurd hb (by simp [resLookup])
    | ok bw =>
      obtain ⟨bl, bw1⟩ := bw
      rw [hcb] at hb
      cases hce : compute_efa_non_man ps valve_type efa_table with
      | error e => rw [hce] at he; exact absurd he (by simp [resLookup])
      | ok ew =>
        obtain ⟨el, ew1⟩ := ew
        rw [hce] at he
        cases hcl : compute_lla ps lf lla_table with
        | error e => rw [hcl] at hl; exact absurd hl (by simp [resLookup])
        | ok lw =>
          obtain ⟨ll, lw1⟩ := lw
          rw [hcl] at hl
          simp only [resLookup] at hb he hl
          simp only [compute_real_ef_non_man, hcb, hce, hcl]
          rw [if_neg hgate]
          simp only [resLookup]
          rw [dictGet_map_self (fun p => dGetD bl p 0 * dGetD el p 1 * dGetD ll p 1) ps p,
            if_pos hp]
          simp [dGetD, hb, he, hl]

/-- C1 witness: the gated branch at lf = 0.5 and the product branch at
lf = 0.1, on concrete tables (year 2010 gives tier 2, base 20; EFA C3 gives
3; lf·100 = 10 is in range, nearest LLA row gives 7). -/
theorem c1_strategyB_gating_witness :
    efMap (compute_real_ef_non_man ["NOx"] 0.5 "main" 2010 100 "C3"
        (some cEF) (some cEFA) (some cLLA))
      = efMap (compute_ef_base ["NOx"] "main" "SSD" 2010 0 100 (some cEF))
    ∧ resLookup (compute_real_ef_non_man ["NOx"] 0.1 "main" 2010 100 "C3"
        (some cEF) (some cEFA) (some cLLA)) "NOx"
      = some (20 * 3 * 7) := by
  constructor
  · exact (c1_strategyB_gating ["NOx"] 0.5 "main" 2010 100 "C3"
      (some cEF) (some cEFA) (some cLLA)).1 (Or.inl (by norm_num))
  · refine (c1_strategyB_gating ["NOx"] 0.1 "main" 2010 100 "C3"
      (some cEF) (some cEFA) (some cLLA)).2 (by norm_num) rfl
      "NOx" (by simp) 20 3 7 ?_ ?_ ?_
    · norm_num [compute_ef_base, tierOfYear, speedOfRpm, runPolls, efbColumn,
        cEF, List.find?, resLookup, dictGet]
      decide
    · norm_num [compute_efa_non_man, runPolls, cEFA, List.find?, resLookup,
        dictGet]
      decide
    · norm_num [compute_lla, runPolls, cLLA, List.find?, resLookup, dictGet,
        maxLoad, nearestRow, LoadRow.col, dGetD]

/-- C2: end-to-end composition.  For a main engine with nonzero rated speed,
whenever the distance factor resolves to `A` and the family-selected
corrected-factor computation (strategy A when `is_man`, gated strategy B
otherwise, at load factor `(v_actual / v_max) ^ 3`) succeeds with mapping
`efl`, the estimator returns one entry per requested pollutant, and the entry
for `p` is `(v_actual / v_max) ^ 3 * A * P * efl[p]`. -/
theorem c2_estimator_composition (ps : List String) (v_actual v_max P : ℚ)
    (type status : String) (buoy : ℤ) (is_man : Bool) (valve_type : String)
    (rpm : ℚ) (year : ℤ) (T : Tables) (A : ℚ) (wA : List String)
    (efl : List (String × ℚ)) (w3 : List String)
    (hvm : v_max ≠ 0)
    (hA : compute_A v_actual buoy status T.buoy = .ok (some A, wA))
    (hEf : (if is_man then
        compute_real_ef_man ps ((v_actual / v_max) ^ 3) "main" year rpm
          valve_type T.ef_base T.laf_c3 T.laf_sv
      else
        compute_real_ef_non_man ps ((v_actual / v_max) ^ 3) "main" year rpm
          valve_type T.ef_base T.efa T.lla)
      = .ok (efl, w3)) :
    resKeys (compute_E ps v_actual v_max P "main" type status buoy is_man
        valve_type rpm year T) = some ps
    ∧ ∀ p ∈ ps, ∀ c : ℚ, dictGet efl p = some c →
        resLookup (compute_E ps v_actual v_max P "main" type status buoy
            is_man valve_type rpm year T) p
          = some ((v_actual / v_max) ^ 3 * A * P * c) := by
  have hlf := compute_lf_main v_actual v_max type status T.lf_aux hvm
  have hshape : ∃ g : String → ℚ, efl = ps.map (fun p => (p, g p)) := by
    cases is_man with
    | true =>
      rw [if_pos rfl] at hEf
      exact compute_real_ef_man_shape hEf
    | false =>
      rw [if_neg (by simp)] at hEf
      exact compute_real_ef_non_man_shape hEf
  obtain ⟨g, hg⟩ := hshape
  have hdg : ∀ p ∈ ps, dictGet efl p = some (g p) :=
    fun p hp => dictGet_of_shape hg hp
  have hml := mulList_ok ((v_actual / v_max) ^ 3) A P efl g ps hdg
  constructor
  · simp only [compute_E, hlf, hA, hEf, hml, resKeys, List.map_map]
    have hcomp : List.map ((fun e : String × ℚ => e.1) ∘
        fun p => (p, (v_actual / v_max) ^ 3 * A * P * g p)) ps
        = List.map id ps := List.map_congr_left (fun a _ => rfl)
    rw [hcomp, List.map_id]
  · intro p hp c hc
    have hcg : c = g p :=
      (Option.some.inj ((hdg p hp).symm.trans hc)).symm
    simp only [compute_E, hlf, hA, hEf, hml, resLookup]
    rw [dictGet_map_self (fun p => (v_actual / v_max) ^ 3 * A * P * g p) ps p,
      if_pos hp, hcg]

/-- C2 witness: main engine, actual 10, rated 20 (load factor 1/8 = 0.125),
MAN family on concrete tables; base 20 × LAF 7 = 140, A = 2·(8/10). -/
theorem c2_estimator_composition_witness :
    resKeys (compute_E ["NOx"] 10 20 2 "main" "container" "trip" 0 true
        "C3" 100 2010 cTables) = some ["NOx"]
    ∧ resLookup (compute_E ["NOx"] 10 20 2 "main" "container" "trip" 0 true
        "C3" 100 2010 cTables) "NOx"
      = some (((10 : ℚ) / 20) ^ 3 * (8 / 5) * 2 * 140) := by
  have h := c2_estimator_composition ["NOx"] 10 20 2 "container" "trip" 0
    true "C3" 100 2010 cTables (8 / 5) [] [("NOx", 140)] []
    (by norm_num)
    (by norm_num [compute_A, cTables, cBuoy, List.find?, buoyCol])
    (by
      norm_num [compute_real_ef_man, compute_ef_base, tierOfYear,
        speedOfRpm, runPolls, efbColumn, compute_laf_man, lafPoll, nearestRow,
        maxLoad, LoadRow.col, cTables, cEF, cLLA, List.find?, dictGet, dGetD,
        abs_of_nonneg, abs_sub_comm]
      simp only [Int.reduceBEq]
      norm_num [dictGet, List.find?, dGetD])
  exact ⟨h.1, h.2 "NOx" (by simp) 140 (by norm_num [dictGet, List.find?])⟩

/-- C3: nearest-neighbor correction lookup.  For any pollutant that is a
column of a (nonempty) load table, both MAN load-adjustment variants
(strategy A) return the value at a row whose load percent minimizes the
absolute distance to `lf·100`; the strategy-B low-load adjustment returns the
same nearest-row value whenever `lf·100` does not exceed every tabulated
load, and exactly 1.0 whenever `lf·100` strictly exceeds every tabulated load
(i.e. the table maximum), no matter how far beyond. -/
theorem c3_nearest_lookup (ps : List String) (lf : ℚ) (t : LoadTable)
    (p : String) (r : LoadRow) (rs : List LoadRow)
    (oc3 osv : Option LoadTable)
    (hc : p ∈ t.cols) (hr : t.rows = r :: rs) (hp : p ∈ ps) :
    (∃ row ∈ t.rows,
      (∀ q ∈ t.rows, |row.load - lf * 100| ≤ |q.load - lf * 100|)
      ∧ resLookup (compute_laf_man ps lf "C3" (some t) osv) p
          = some (row.col p)
      ∧ resLookup (compute_laf_man ps lf "SV" oc3 (some t)) p
          = some (row.col p)
      ∧ ((∃ q ∈ t.rows, lf * 100 ≤ q.load) →
          resLookup (compute_lla ps lf (some t)) p = some (row.col p)))
    ∧ ((∀ q ∈ t.rows, q.load < lf * 100) →
        resLookup (compute_lla ps lf (some t)) p = some 1) := by
  have hmem : ∀ q : LoadRow, (q = r ∨ q ∈ rs) ↔ q ∈ t.rows := by
    intro q; rw [hr, List.mem_cons]
  constructor
  · refine ⟨nearestRow (lf * 100) r rs, ?_, ?_, ?_, ?_, ?_⟩
    · exact (hmem _).mp (nearestRow_mem (lf * 100) rs r)
    · intro q hq
      exact nearestRow_min (lf * 100) rs r q ((hmem q).mpr hq)
    · obtain ⟨w, hw⟩ := compute_laf_man_ok_c3 ps lf t osv r rs hr
      rw [hw]
      simp only [resLookup]
      rw [dictGet_map_self (fun p => lafVal t (lf * 100) p) ps p, if_pos hp]
      simp only [lafVal, hc, if_true, hr]
    · obtain ⟨w, hw⟩ := compute_laf_man_ok_sv ps lf t oc3 r rs hr
      rw [hw]
      simp only [resLookup]
      rw [dictGet_map_self (fun p => lafVal t (lf * 100) p) ps p, if_pos hp]
      simp only [lafVal, hc, if_true, hr]
    · intro hle
      obtain ⟨q, hq, hqle⟩ := hle
      have hng : ¬(lf * 100 > maxLoad r rs) :=
        not_lt.mpr (le_trans hqle (maxLoad_le r rs q ((hmem q).mpr hq)))
      obtain ⟨w, hw⟩ := compute_lla_ok ps lf t r rs hr
      rw [hw]
      simp only [resLookup]
      rw [dictGet_map_self (fun p => llaVal t lf p) ps p, if_pos hp]
      simp only [llaVal, hc, if_true, hr, if_neg hng]
  · intro hlt
    obtain ⟨q0, hq0, hmax⟩ := maxLoad_attained r rs
    have hg : lf * 100 > maxLoad r rs := by
      rw [hmax]
      exact hlt q0 ((hmem q0).mp hq0)
    obtain ⟨w, hw⟩ := compute_lla_ok ps lf t r rs hr
    rw [hw]
    simp only [resLookup]
    rw [dictGet_map_self (fun p => llaVal t lf p) ps p, if_pos hp]
    simp only [llaVal, hc, if_true, hr, if_pos hg]

/-- C3 witness on the concrete table (rows at 10% and 20%): at lf = 0.1 both
hypotheses of the theorem hold and the instantiated conclusion follows. -/
theorem c3_nearest_lookup_witness :
    (∃ row ∈ cLLA.rows,
      (∀ q ∈ cLLA.rows,
          |row.load - (0.1 : ℚ) * 100| ≤ |q.load - (0.1 : ℚ) * 100|)
      ∧ resLookup (compute_laf_man ["NOx"] 0.1 "C3" (some cLLA) (some cLLA))
          "NOx" = some (row.col "NOx")
      ∧ resLookup (compute_laf_man ["NOx"] 0.1 "SV" (some cLLA) (some cLLA))
          "NOx" = some (row.col "NOx")
      ∧ ((∃ q ∈ cLLA.rows, (0.1 : ℚ) * 100 ≤ q.load) →
          resLookup (compute_lla ["NOx"] 0.1 (some cLLA)) "NOx"
            = some (row.col "NOx")))
    ∧ ((∀ q ∈ cLLA.rows, q.load < (0.1 : ℚ) * 100) →
        resLookup (compute_lla ["NOx"] 0.1 (some cLLA)) "NOx" = some 1) :=
  c3_nearest_lookup ["NOx"] 0.1 cLLA "NOx" ⟨10, [("NOx", 7)]⟩
    [⟨20, [("NOx", 5)]⟩] (some cLLA) (some cLLA)
    (by simp [cLLA]) rfl (by simp)

/-- C4 counterexample: the claim says the lookup honours the `tier` and
`speed_class` arguments, so two calls differing only in `tier` (or only in
`engine_speed`) must select different rows/columns.  On a table whose tier-1
SSD value is 10, tier-2 SSD value is 20 and tier-1 HSD value is 12, the calls
with year 2005 and rpm 100 all return 10: the passed tier 2 and the passed
speed class HSD are ignored in favour of the derived tier 1 and SSD. -/
theorem c4_counterexample :
    compute_ef_base ["NOx"] "main" "SSD" 2005 1 100 (some cEF)
      = compute_ef_base ["NOx"] "main" "SSD" 2005 2 100 (some cEF)
    ∧ compute_ef_base ["NOx"] "main" "HSD" 2005 1 100 (some cEF)
      = compute_ef_base ["NOx"] "main" "SSD" 2005 1 100 (some cEF)
    ∧ resLookup
        (compute_ef_base ["NOx"] "main" "SSD" 2005 2 100 (some cEF)) "NOx"
      = some 10
    ∧ resLookup
        (compute_ef_base ["NOx"] "main" "HSD" 2005 1 100 (some cEF)) "NOx"
      = some 10 := by
  refine ⟨rfl, rfl, ?_, ?_⟩ <;>
    · norm_num [compute_ef_base, tierOfYear, speedOfRpm, runPolls, efbColumn,
        cEF, List.find?, resLookup, dictGet]
      decide

/-- C4 (amended): `compute_ef_base` ignores its `engine_speed` and `tier`
arguments entirely — it recomputes the tier from `year` and the speed class
from `rpm` — and then returns, for each requested pollutant, the value of the
row matching (pollutant, derived tier) in the column selected by the engine
role and the derived speed class, or 0.0 when no row matches. -/
theorem c4_ef_base_ignores_args (ps : List String) (engine es es2 : String)
    (t t2 : ℤ) (year : ℤ) (rpm : ℚ) (tbl : Option (List EFRow)) :
    compute_ef_base ps engine es year t rpm tbl
      = compute_ef_base ps engine es2 year t2 rpm tbl
    ∧ ∀ (T : List EFRow) (p : String), p ∈ ps →
        (engine = "main" ∨ engine = "auxiliary") →
        ((∀ row,
            T.find? (fun r => r.exhaust == p && r.tier == tierVal year)
              = some row →
            resLookup (compute_ef_base ps engine es year t rpm (some T)) p
              = some (colSel engine (speedVal rpm) row))
         ∧ (T.find? (fun r => r.exhaust == p && r.tier == tierVal year)
              = none →
            resLookup (compute_ef_base ps engine es year t rpm (some T)) p
              = some 0)) := by
  refine ⟨rfl, ?_⟩
  intro T p hp he
  obtain ⟨w, hw⟩ := compute_ef_base_ok ps engine es year t rpm T he
  constructor
  · intro row hrow
    rw [hw]
    simp only [resLookup]
    rw [dictGet_map_self
        (fun p => efbVal engine (speedVal rpm) (tierVal year) T p) ps p,
      if_pos hp]
    simp only [efbVal, hrow]
  · intro hnone
    rw [hw]
    simp only [resLookup]
    rw [dictGet_map_self
        (fun p => efbVal engine (speedVal rpm) (tierVal year) T p) ps p,
      if_pos hp]
    simp only [efbVal, hnone]

/-- C4 witness: the amended lookup at year 2005 and rpm 100 picks the tier-1
row in the SSD column of the concrete table. -/
theorem c4_ef_base_ignores_args_witness :
    resLookup (compute_ef_base ["NOx"] "main" "SSD" 2005 1 100 (some cEF))
        "NOx"
      = some (colSel "main" (speedVal 100)
          ⟨"NOx", 1, 10, 11, 12, 13⟩) :=
  ((c4_ef_base_ignores_args ["NOx"] "main" "SSD" "HSD" 1 2 2005 100
      (some cEF)).2 cEF "NOx" (by simp) (Or.inl rfl)).1
    ⟨"NOx", 1, 10, 11, 12, 13⟩ (by decide)

/-- C5 counterexample: the claim says a missing backing table file is fatal
for every table-consulting operation, but `compute_lla` catches the missing
file: it prints an error line and returns multiplier 1.0 for every requested
pollutant instead of raising. -/
theorem c5_counterexample :
    compute_lla ["NOx"] 0.1 none
      = .ok ([("NOx", 1)], ["Error: File LLA_non_man.csv not found."])
    ∧ ∀ e : Err, compute_lla ["NOx"] 0.1 none ≠ .error e := by
  refine ⟨rfl, ?_⟩
  intro e h
  exact absurd h (by simp [compute_lla])

/-- C5 (amended): a missing backing table file raises a fatal
`ResourceNotFoundError` for the auxiliary-load-factor, base-emission-factor,
emission-factor-adjustment, load-adjustment-factor and distance tables, but
NOT for the low-load-adjustment table, whose absence is recoverable: every
requested pollutant gets multiplier 1.0 and only an error line is printed. -/
theorem c5_missing_table_fatality (v vm lf : ℚ) (ps : List String)
    (engine type status es valve : String) (year t : ℤ) (rpm : ℚ) (b : ℤ)
    (oc3 osv : Option LoadTable) :
    compute_lf v vm "auxiliary" type status none = .error .resourceNotFound
    ∧ compute_ef_base ps engine es year t rpm none
        = .error .resourceNotFound
    ∧ compute_efa_non_man ps valve none = .error .resourceNotFound
    ∧ compute_laf_man ps lf "C3" none osv = .error .resourceNotFound
    ∧ compute_laf_man ps lf "SV" oc3 none = .error .resourceNotFound
    ∧ compute_A v b status none = .error .resourceNotFound
    ∧ compute_lla ps lf none
        = .ok (ps.map (fun p => (p, 1)),
            ["Error: File LLA_non_man.csv not found."]) := by
  refine ⟨?_, ?_, rfl, ?_, ?_, rfl, rfl⟩
  · simp [compute_lf]
  · simp [compute_ef_base, tierOfYear_eq, speedOfRpm_eq]
  · simp [compute_laf_man]
  · simp [compute_laf_man]

/-- C6 counterexample: the claim says that, with the sentinel present, the
estimator fails instead of returning a result mapping — but when the
requested pollutant list is empty the multiply loop of the source never
runs, so the estimator returns the empty mapping (with the buoy warning)
instead of failing; the sentinel only raises inside the loop body. -/
theorem c6_counterexample :
    compute_E [] 10 20 2 "main" "container" "trip" 7 true "C3" 100 2010
        cTables
      = .ok ([], ["Warning: buoy not found, default A will be used"])
    ∧ ∀ e : Err,
        compute_E [] 10 20 2 "main" "container" "trip" 7 true "C3" 100 2010
            cTables
          ≠ .error e := by
  have h : compute_E [] 10 20 2 "main" "container" "trip" 7 true "C3" 100
      2010 cTables
      = .ok ([], ["Warning: buoy not found, default A will be used"]) := by
    norm_num [compute_E, compute_lf, compute_A, cTables, cBuoy, List.find?,
      compute_real_ef_man, compute_ef_base, tierOfYear, speedOfRpm, runPolls,
      compute_laf_man, mulList]
    simp only [Int.reduceBEq]
  exact ⟨h, fun e he => absurd (h.symm.trans he) (by simp)⟩

/-- C6 (amended): distance-factor behaviour.  An unmatched buoy id yields
the `None` sentinel plus a printed warning, and whenever at least one
pollutant is requested the estimator then raises (TypeError at the first
per-pollutant multiply) instead of returning any result mapping — an empty
request returns the empty mapping, which involves no multiply with the
sentinel; a matched id yields `2 · (S / v_actual)` for the looked-up
reference speed `S`, with `v_actual = 0` a fatal ZeroDivisionError. -/
theorem c6_distance_factor (ps : List String) (v vm P : ℚ)
    (type status : String) (b : ℤ) (tbl : List BuoyRow) (is_man : Bool)
    (valve : String) (rpm : ℚ) (year : ℤ) (T : Tables) :
    (tbl.find? (fun r => r.buoy == b) = none →
      compute_A v b status (some tbl)
        = .ok (none, ["Warning: buoy not found, default A will be used"]))
    ∧ (tbl.find? (fun r => r.buoy == b) = none → T.buoy = some tbl →
        vm ≠ 0 → ps ≠ [] →
      ∀ efl w3,
        (if is_man then
            compute_real_ef_man ps ((v / vm) ^ 3) "main" year rpm valve
              T.ef_base T.laf_c3 T.laf_sv
          else
            compute_real_ef_non_man ps ((v / vm) ^ 3) "main" year rpm valve
              T.ef_base T.efa T.lla) = .ok (efl, w3) →
        compute_E ps v vm P "main" type status b is_man valve rpm year T
          = .error .typeErr)
    ∧ (∀ row, tbl.find? (fun r => r.buoy == b) = some row →
        (status = "trip" ∨ status = "maneuver" ∨ status = "mooring") →
        (v ≠ 0 → ∃ S, buoyCol row status = .ok S ∧
            compute_A v b status (some tbl) = .ok (some (2 * (S / v)), []))
        ∧ (v = 0 →
            compute_A v b status (some tbl) = .error .divisionByZero)) := by
  refine ⟨?_, ?_, ?_⟩
  · intro h
    simp [compute_A, h]
  · intro h hT hvm hne efl w3 hEf
    have hlf := compute_lf_main v vm type status T.lf_aux hvm
    have hA : compute_A v b status T.buoy
        = .ok (none, ["Warning: buoy not found, default A will be used"]) := by
      rw [hT]; simp [compute_A, h]
    cases ps with
    | nil => exact absurd rfl hne
    | cons p0 ps2 =>
      simp only [compute_E, hlf, hA, hEf, mulList]
  · intro row hrow hst
    constructor
    · intro hv
      rcases hst with h | h | h <;> subst h
      · exact ⟨row.trip, rfl, by simp [compute_A, hrow, buoyCol, hv]⟩
      · exact ⟨row.maneuver, rfl, by simp [compute_A, hrow, buoyCol, hv]⟩
      · exact ⟨row.mooring, rfl, by simp [compute_A, hrow, buoyCol, hv]⟩
    · intro hv0
      rcases hst with h | h | h <;> subst h <;>
        simp [compute_A, hrow, buoyCol, hv0]

/-- C6 witness: buoy 7 is absent from the concrete table (sentinel plus
warning, estimator raises); buoy 0 is present (factor 2·(8/10), and division
error at actual speed 0). -/
theorem c6_distance_factor_witness :
    compute_A 10 7 "trip" (some cBuoy)
      = .ok (none, ["Warning: buoy not found, default A will be used"])
    ∧ compute_E ["NOx"] 10 20 2 "main" "container" "trip" 7 true "C3" 100
        2010 cTables = .error .typeErr
    ∧ (∃ S, buoyCol ⟨0, 8, 4, 1⟩ "trip" = .ok S ∧
        compute_A 10 0 "trip" (some cBuoy) = .ok (some (2 * (S / 10)), []))
    ∧ compute_A 0 0 "trip" (some cBuoy) = .error .divisionByZero := by
  have h7 : cBuoy.find? (fun r => r.buoy == (7 : ℤ)) = none := by decide
  have h0 : cBuoy.find? (fun r => r.buoy == (0 : ℤ))
      = some ⟨0, 8, 4, 1⟩ := by decide
  refine ⟨?_, ?_, ?_, ?_⟩
  · exact (c6_distance_factor ["NOx"] 10 20 2 "container" "trip" 7 cBuoy
      true "C3" 100 2010 cTables).1 h7
  · exact (c6_distance_factor ["NOx"] 10 20 2 "container" "trip" 7 cBuoy
      true "C3" 100 2010 cTables).2.1 h7 rfl (by norm_num) (by simp)
      [("NOx", 140)] []
      (by
        norm_num [compute_real_ef_man, compute_ef_base, tierOfYear,
          speedOfRpm, runPolls, efbColumn, compute_laf_man, lafPoll,
          nearestRow, maxLoad, LoadRow.col, cTables, cEF, cLLA, List.find?,
          dictGet, dGetD, abs_of_nonneg, abs_sub_comm]
        simp only [Int.reduceBEq]
        norm_num [dictGet, List.find?, dGetD])
  · exact ((c6_distance_factor ["NOx"] 10 20 2 "container" "trip" 0 cBuoy
      true "C3" 100 2010 cTables).2.2 ⟨0, 8, 4, 1⟩ h0 (Or.inl rfl)).1
      (by norm_num)
  · exact ((c6_distance_factor ["NOx"] 0 20 2 "container" "trip" 0 cBuoy
      true "C3" 100 2010 cTables).2.2 ⟨0, 8, 4, 1⟩ h0 (Or.inl rfl)).2 rfl

/-- C9 counterexample: the claim says any status outside
{trip, maneuver, mooring} raises an `InvalidInputError`, but when the vessel
type is also absent from the table the source returns the 0.5 default (the
row lookup happens before the status check), raising nothing. -/
theorem c9_counterexample :
    compute_lf 10 20 "auxiliary" "boat" "badstatus" (some cAux)
      = .ok (0.5, ["Warning: ship type not found, default LF 0.5 used"])
    ∧ ∀ e : Err,
        compute_lf 10 20 "auxiliary" "boat" "badstatus" (some cAux)
          ≠ .error e := by
  constructor
  · simp [compute_lf, cAux, List.find?]
  · intro e h
    exact absurd h (by simp [compute_lf, cAux, List.find?])

/-- C9 (amended): for auxiliary engines, when the vessel type matches a table
row the exact tabulated value for a valid status is returned and an invalid
status raises `InvalidInputError`; when the vessel type is absent the default
0.5 is returned with a warning regardless of the status, even an invalid
one. -/
theorem c9_aux_load_factor (v vm : ℚ) (type status : String)
    (rows : List AuxRow) :
    (∀ r, rows.find? (fun a => a.ship == type) = some r →
      (status = "trip" →
        compute_lf v vm "auxiliary" type status (some rows)
          = .ok (r.trip, []))
      ∧ (status = "maneuver" →
        compute_lf v vm "auxiliary" type status (some rows)
          = .ok (r.maneuver, []))
      ∧ (status = "mooring" →
        compute_lf v vm "auxiliary" type status (some rows)
          = .ok (r.mooring, []))
      ∧ (status ≠ "trip" → status ≠ "maneuver" → status ≠ "mooring" →
        compute_lf v vm "auxiliary" type status (some rows)
          = .error .invalidInput))
    ∧ (rows.find? (fun a => a.ship == type) = none →
      compute_lf v vm "auxiliary" type status (some rows)
        = .ok (0.5, ["Warning: ship type not found, default LF 0.5 used"])) := by
  constructor
  · intro r hr
    refine ⟨?_, ?_, ?_, ?_⟩
    · intro h; subst h; simp [compute_lf, hr]
    · intro h; subst h; simp [compute_lf, hr]
    · intro h; subst h; simp [compute_lf, hr]
    · intro h1 h2 h3
      simp [compute_lf, hr, h1, h2, h3]
  · intro hnone
    simp [compute_lf, hnone]

/-- C9 witness: on the concrete table, matched type and status trip give the
tabulated 0.8; matched type with an invalid status raises; unmatched type
gives the 0.5 default. -/
theorem c9_aux_load_factor_witness :
    compute_lf 10 20 "auxiliary" "container" "trip" (some cAux)
      = .ok (0.8, [])
    ∧ compute_lf 10 20 "auxiliary" "container" "bad" (some cAux)
      = .error .invalidInput
    ∧ compute_lf 10 20 "auxiliary" "boat" "trip" (some cAux)
      = .ok (0.5, ["Warning: ship type not found, default LF 0.5 used"]) := by
  have hfind : cAux.find? (fun a => a.ship == "container")
      = some ⟨"container", 0.8, 0.6, 0.2⟩ := by
    simp [cAux, List.find?]
  have hnone : cAux.find? (fun a => a.ship == "boat") = none := by
    simp [cAux, List.find?]
  refine ⟨?_, ?_, ?_⟩
  · exact ((c9_aux_load_factor 10 20 "container" "trip" cAux).1 _ hfind).1 rfl
  · exact ((c9_aux_load_factor 10 20 "container" "bad" cAux).1 _
      hfind).2.2.2 (by decide) (by decide) (by decide)
  · exact (c9_aux_load_factor 10 20 "boat" "trip" cAux).2 hnone

theorem resKeys_map (ps : List String) (g : String → ℚ) (w : List String) :
    resKeys (Except.ok (ps.map (fun p => (p, g p)), w)) = some ps := by
  simp only [resKeys, List.map_map, Option.some.injEq]
  have hcomp : List.map ((fun e : String × ℚ => e.1) ∘ fun p => (p, g p)) ps
      = List.map id ps := List.map_congr_left (fun a _ => rfl)
  rw [hcomp, List.map_id]

/-- C10: missing-pollutant default substitution.  For a pollutant `p` absent
from a correction table (LLA column, EFA row, or LAF column), the call does
not raise, `p` gets multiplier exactly 1.0, the result still has one entry
per requested pollutant in order, and every other pollutant of the same call
gets the same value it gets in a standalone single-pollutant call. -/
theorem c10_missing_pollutant_defaults (ps : List String) (lf : ℚ)
    (p : String) (tL : LoadTable) (rL : LoadRow) (rsL : List LoadRow)
    (df : List EFARow) (valve : String) (tF : LoadTable) (rF : LoadRow)
    (rsF : List LoadRow) (osv : Option LoadTable)
    (hp : p ∈ ps)
    (hrowsL : tL.rows = rL :: rsL)
    (hcL : p ∉ tL.cols)
    (hv : valve = "SV" ∨ valve = "C3")
    (hdf : df.find? (fun r => r.pollutant == p) = none)
    (hrowsF : tF.rows = rF :: rsF)
    (hcF : p ∉ tF.cols) :
    (resKeys (compute_lla ps lf (some tL)) = some ps
      ∧ resLookup (compute_lla ps lf (some tL)) p = some 1
      ∧ ∀ q ∈ ps, resLookup (compute_lla ps lf (some tL)) q
          = resLookup (compute_lla [q] lf (some tL)) q)
    ∧ (resKeys (compute_efa_non_man ps valve (some df)) = some ps
      ∧ resLookup (compute_efa_non_man ps valve (some df)) p = some 1
      ∧ ∀ q ∈ ps, resLookup (compute_efa_non_man ps valve (some df)) q
          = resLookup (compute_efa_non_man [q] valve (some df)) q)
    ∧ (resKeys (compute_laf_man ps lf "C3" (some tF) osv) = some ps
      ∧ resLookup (compute_laf_man ps lf "C3" (some tF) osv) p = some 1
      ∧ ∀ q ∈ ps, resLookup (compute_laf_man ps lf "C3" (some tF) osv) q
          = resLookup (compute_laf_man [q] lf "C3" (some tF) osv) q) := by
  obtain ⟨wL, hwL⟩ := compute_lla_ok ps lf tL rL rsL hrowsL
  obtain ⟨wE, hwE⟩ := compute_efa_ok ps valve df hv
  obtain ⟨wF, hwF⟩ := compute_laf_man_ok_c3 ps lf tF osv rF rsF hrowsF
  refine ⟨⟨?_, ?_, ?_⟩, ⟨?_, ?_, ?_⟩, ⟨?_, ?_, ?_⟩⟩
  · rw [hwL]; exact resKeys_map ps _ wL
  · rw [hwL]
    simp only [resLookup]
    rw [dictGet_map_self (fun p => llaVal tL lf p) ps p, if_pos hp]
    simp [llaVal, hcL]
  · intro q hq
    obtain ⟨wq, hwq⟩ := compute_lla_ok [q] lf tL rL rsL hrowsL
    rw [hwL, hwq]
    simp only [resLookup]
    rw [dictGet_map_self (fun p => llaVal tL lf p) ps q, if_pos hq,
      dictGet_map_self (fun p => llaVal tL lf p) [q] q,
      if_pos (by simp : q ∈ [q])]
  · rw [hwE]; exact resKeys_map ps _ wE
  · rw [hwE]
    simp only [resLookup]
    rw [dictGet_map_self (fun p => efaVal df valve p) ps p, if_pos hp]
    simp [efaVal, hdf]
  · intro q hq
    obtain ⟨wq, hwq⟩ := compute_efa_ok [q] valve df hv
    rw [hwE, hwq]
    simp only [resLookup]
    rw [dictGet_map_self (fun p => efaVal df valve p) ps q, if_pos hq,
      dictGet_map_self (fun p => efaVal df valve p) [q] q,
      if_pos (by simp : q ∈ [q])]
  · rw [hwF]; exact resKeys_map ps _ wF
  · rw [hwF]
    simp only [resLookup]
    rw [dictGet_map_self (fun p => lafVal tF (lf * 100) p) ps p, if_pos hp]
    simp [lafVal, hcF]
  · intro q hq
    obtain ⟨wq, hwq⟩ := compute_laf_man_ok_c3 [q] lf tF osv rF rsF hrowsF
    rw [hwF, hwq]
    simp only [resLookup]
    rw [dictGet_map_self (fun p => lafVal tF (lf * 100) p) ps q, if_pos hq,
      dictGet_map_self (fun p => lafVal tF (lf * 100) p) [q] q,
      if_pos (by simp : q ∈ [q])]

/-- C10 witness: SO2 is missing from every concrete correction table while
NOx is present; the instantiated conclusion follows with ps = [SO2, NOx]. -/
theorem c10_missing_pollutant_defaults_witness :
    (resKeys (compute_lla ["SO2", "NOx"] 0.1 (some cLLA))
        = some ["SO2", "NOx"]
      ∧ resLookup (compute_lla ["SO2", "NOx"] 0.1 (some cLLA)) "SO2" = some 1
      ∧ ∀ q ∈ (["SO2", "NOx"] : List String),
          resLookup (compute_lla ["SO2", "NOx"] 0.1 (some cLLA)) q
            = resLookup (compute_lla [q] 0.1 (some cLLA)) q)
    ∧ (resKeys (compute_efa_non_man ["SO2", "NOx"] "C3" (some cEFA))
        = some ["SO2", "NOx"]
      ∧ resLookup (compute_efa_non_man ["SO2", "NOx"] "C3" (some cEFA)) "SO2"
          = some 1
      ∧ ∀ q ∈ (["SO2", "NOx"] : List String),
          resLookup (compute_efa_non_man ["SO2", "NOx"] "C3" (some cEFA)) q
            = resLookup (compute_efa_non_man [q] "C3" (some cEFA)) q)
    ∧ (resKeys (compute_laf_man ["SO2", "NOx"] 0.1 "C3" (some cLLA)
          (some cLLA)) = some ["SO2", "NOx"]
      ∧ resLookup (compute_laf_man ["SO2", "NOx"] 0.1 "C3" (some cLLA)
          (some cLLA)) "SO2" = some 1
      ∧ ∀ q ∈ (["SO2", "NOx"] : List String),
          resLookup (compute_laf_man ["SO2", "NOx"] 0.1 "C3" (some cLLA)
              (some cLLA)) q
            = resLookup (compute_laf_man [q] 0.1 "C3" (some cLLA)
                (some cLLA)) q) :=
  c10_missing_pollutant_defaults ["SO2", "NOx"] 0.1 "SO2" cLLA
    ⟨10, [("NOx", 7)]⟩ [⟨20, [("NOx", 5)]⟩] cEFA "C3" cLLA
    ⟨10, [("NOx", 7)]⟩ [⟨20, [("NOx", 5)]⟩] (some cLLA)
    (by simp) rfl (by simp [cLLA]) (Or.inr rfl)
    (by simp [cEFA, List.find?]) rfl (by simp [cLLA])

end ShipExhaust
